import Mathlib

/-!
Verification of `rmv_checker` against its design specification.

The repository has two source variants of the same script:
  * `src/check_appointment.py` (scripted-browser fetch via a headless click),
    embedded here in namespace `Scripted`;
  * `src/rmv_checker/check_appointment.py` (static HTTP fetch),
    embedded here in namespace `Static`.

Strings are modelled as `List Char`.  External effects (the HTTP layer, the
headless browser, the notification endpoint) are oracles passed in as
parameters; a Python exception that propagates out of a function is modelled
by `Except.error`, a caught-and-converted failure by a normal return
(`Option`/record).  Observable side effects (fetch attempts, detector calls,
notifier invocations, sleeps, error-stream lines) are counted in explicit
result records, so every function here is pure and total.
-/

/-! ### String model: BeautifulSoup text extraction and `str.lower` -/

/-- Whitespace characters stripped by Python's `str.strip()` (ASCII subset). -/
def isSpaceChar (c : Char) : Bool :=
  c = ' ' || c = '\t' || c = '\n' || c = '\r'

/-- Model of the html parser's division of a document into text segments:
characters outside `<...>` tags form the text nodes, `<` opens a tag that runs
to the next `>`.  The accumulator holds the current segment reversed; the
`Bool` is true while inside a tag. -/
def segsAux : Bool → List Char → List Char → List (List Char)
  | _, acc, [] => [acc.reverse]
  | false, acc, c :: cs =>
    if c = '<' then acc.reverse :: segsAux true [] cs
    else segsAux false (c :: acc) cs
  | true, acc, c :: cs =>
    if c = '>' then segsAux false [] cs
    else segsAux true acc cs

/-- Python `s.strip()` on our character-list strings. -/
def stripWs (s : List Char) : List Char :=
  ((s.dropWhile isSpaceChar).reverse.dropWhile isSpaceChar).reverse

/-- Model of `BeautifulSoup(html, "html.parser").get_text(" ", strip=True)`:
split the document into text nodes, strip each, drop the empty ones, and join
with a single space. -/
def getText (html : List Char) : List Char :=
  List.intercalate (String.toList " ")
    (((segsAux false [] html).map stripWs).filter (fun s => !s.isEmpty))

/-- Model of Python `str.lower()` (per-character lowering). -/
def lowerStr (s : List Char) : List Char := s.map Char.toLower

/-- Model of Python's substring test `sub in text`: contiguous-substring
containment, decided via `List.decidableInfix`. -/
def strContains (text sub : List Char) : Bool := decide (sub <:+: text)

theorem strContains_iff (text sub : List Char) :
    strContains text sub = true ↔ sub <:+: text := decide_eq_true_iff

/-! ### The two detector variants -/

/-- `page_has_july_or_august` from `src/check_appointment.py`:
`any(m in text for m in ("jul", "aug"))` over the lowered extracted text.
(Its docstring mentions 'Sep' as well, but the code only checks the tuple
`("jul", "aug")`.) -/
def Scripted.page_has_july_or_august (html : List Char) : Bool :=
  let text := lowerStr (getText html)
  (List.map String.toList ["jul", "aug"]).any (fun m => strContains text m)

/-- `page_has_july_or_august` from `src/rmv_checker/check_appointment.py`:
`("jul" in text) or ("aug" in text) or ("sep" in text)` over the lowered
extracted text. -/
def Static.page_has_july_or_august (html : List Char) : Bool :=
  let text := lowerStr (getText html)
  strContains text (String.toList "jul") || strContains text (String.toList "aug")
    || strContains text (String.toList "sep")

theorem scripted_detector_iff (html : List Char) :
    Scripted.page_has_july_or_august html = true ↔
      (String.toList "jul" <:+: lowerStr (getText html) ∨
       String.toList "aug" <:+: lowerStr (getText html)) := by
  simp [Scripted.page_has_july_or_august, strContains]

theorem static_detector_iff (html : List Char) :
    Static.page_has_july_or_august html = true ↔
      (String.toList "jul" <:+: lowerStr (getText html) ∨
       String.toList "aug" <:+: lowerStr (getText html) ∨
       String.toList "sep" <:+: lowerStr (getText html)) := by
  simp [Static.page_has_july_or_august, strContains, or_assoc]

example : Scripted.page_has_july_or_august (String.toList "<p>JULY 1</p>") = true := by decide

example : Static.page_has_july_or_august (String.toList "<html><body>September</body></html>") = true := by decide

example : Scripted.page_has_july_or_august (String.toList "<html><body>September</body></html>") = false := by decide

/-! ### Shared effect records -/

/-- One line printed by the script; `isErr` is true for the error stream. -/
structure LogLine where
  isErr : Bool
  msg : String
deriving DecidableEq

/-- Counts of the observable events of one run (or one iteration):
fetch attempts, detector invocations, notifier invocations, sleeps, and
error-stream lines. -/
structure RunStats where
  fetches : Nat
  detectorCalls : Nat
  sendCalls : Nat
  sleeps : Nat
  errLogs : Nat
deriving DecidableEq

def mkStats (fetches detectorCalls sendCalls sleeps errLogs : Nat) : RunStats :=
  ⟨fetches, detectorCalls, sendCalls, sleeps, errLogs⟩

def zeroStats : RunStats := mkStats 0 0 0 0 0

def RunStats.add (a b : RunStats) : RunStats :=
  ⟨a.fetches + b.fetches, a.detectorCalls + b.detectorCalls,
   a.sendCalls + b.sendCalls, a.sleeps + b.sleeps, a.errLogs + b.errLogs⟩

/-- Pushover credentials as read from the environment: `None` when the
variable is unset. -/
structure Creds where
  user_key : Option String
  api_token : Option String

/-- Python truthiness of an optional environment string: `None` and the empty
string are falsy. -/
def truthy : Option String → Bool
  | none => false
  | some s => !s.toList.isEmpty

/-- The form-encoded POST body sent to the Pushover endpoint. -/
structure Payload where
  token : String
  user : String
  title : String
  message : String
  url : String

/-- An HTTP response as seen through the `requests` library. -/
structure Response where
  status : Nat
  text : List Char

/-- Outcome of one `requests.post`/`requests.get`: a response, or a transport
failure (`requests.RequestException` raised by the library). -/
inductive PostOutcome where
  | ok : Response → PostOutcome
  | err : String → PostOutcome

/-- `Response.raise_for_status`: raises `HTTPError` (a `RequestException`)
exactly for client/server error statuses 400..599. -/
def raise_for_status (r : Response) : Except String Response :=
  if 400 ≤ r.status ∧ r.status < 600 then Except.error "HTTPError" else Except.ok r

/-- A POST outcome that the notifier's `try` block treats as a failure:
either a transport error or a status that makes `raise_for_status` raise. -/
def isFail : PostOutcome → Bool
  | PostOutcome.ok r => decide (400 ≤ r.status ∧ r.status < 600)
  | PostOutcome.err _ => true

/-- What a notifier invocation did: the POSTs it performed (in order) and the
lines it printed. -/
structure SendResult where
  posts : List Payload
  logs : List LogLine

/-! ### Static variant (`src/rmv_checker/check_appointment.py`) -/

/-- The built-in default booking URL of the static variant. -/
def Static.DEFAULT_URL : String :=
  "https://rmvmassdotappt.cxmflow.com/Appointment/Index/2c052fc7-571f-4b76-9790-7e91f103c408?AccessToken=f39fa0e6-3b62-496f-b3af-6e88425c8305"

/-- `fetch_page`: issue the GET (modelled by the oracle `net`), call
`raise_for_status`, and return the response text; any `RequestException`
(transport failure or `HTTPError`) is caught, logged to the error stream, and
converted to `none`.  The `Option` return type is the absence-of-result
marker; the function is total, so nothing escapes this boundary. -/
def Static.fetch_page (net : Except String Response) : Option (List Char) × List LogLine :=
  match net.bind raise_for_status with
  | Except.ok r => (some r.text, [])
  | Except.error e => (none, [⟨true, "Error fetching: " ++ e⟩])

/-- `send_notification` of the static variant: if either credential is
missing (falsy), silently return with no POST and no output; otherwise POST
the payload, and catch a failing outcome into one error-stream line. -/
def Static.send_notification (env_url : Option String) (creds : Creds)
    (post : Payload → PostOutcome) (message title : String) : SendResult :=
  if !truthy creds.user_key || !truthy creds.api_token then
    ⟨[], []⟩
  else
    let payload : Payload :=
      ⟨creds.api_token.getD "", creds.user_key.getD "", title, message,
       env_url.getD Static.DEFAULT_URL⟩
    match post payload with
    | PostOutcome.err e => ⟨[payload], [⟨true, "Notification error: " ++ e⟩]⟩
    | PostOutcome.ok r =>
      if 400 ≤ r.status ∧ r.status < 600 then
        ⟨[payload], [⟨true, "Notification error: HTTPError"⟩]⟩
      else
        ⟨[payload], []⟩

/-! ### Scripted variant (`src/check_appointment.py`) -/

/-- The built-in default booking URL of the scripted variant. -/
def Scripted.DEFAULT_URL : String :=
  "https://rmvmassdotappt.cxmflow.com/Appointment/Index/2c052fc7-571f-4b76-9790-7e91f103c408?AccessToken=32a318aa-213e-4dd8-acc6-df063cb9fcd7"

/-- Outcomes of the three fallible playwright steps of one scripted fetch:
`page.goto`, `page.click` on the location button, and `page.content` after the
settle wait.  `Except.error` means that step raised. -/
structure Scripted.BrowserOracle where
  goto : Except String Unit
  click : Except String Unit
  content : Except String (List Char)

/-- `fetch_after_click`: navigate, click the button with the configured
`data-id`, wait, and return the rendered HTML.  The source has no
`try`/`except`: a failure in any step raises out of the coroutine, so the
embedding returns `Except.error` (a propagating exception), not a normal
absence-of-result value. -/
def Scripted.fetch_after_click (b : Scripted.BrowserOracle) : Except String (List Char) := do
  let _ ← b.goto
  let _ ← b.click
  b.content

/-- `send_notification` of the scripted variant: if either credential is
falsy, print a "keys missing" diagnostic to the error stream and return
without any POST; otherwise POST the payload, printing a success line on a
2xx/3xx outcome and one error-stream diagnostic on a caught
`RequestException`. -/
def Scripted.send_notification (creds : Creds) (post : Payload → PostOutcome)
    (message title : String) : SendResult :=
  if !(truthy creds.user_key && truthy creds.api_token) then
    ⟨[], [⟨true, "Pushover keys missing; skipping notification"⟩]⟩
  else
    let payload : Payload :=
      ⟨creds.api_token.getD "", creds.user_key.getD "", title, message,
       Scripted.DEFAULT_URL⟩
    match post payload with
    | PostOutcome.err e => ⟨[payload], [⟨true, "Notification error: " ++ e⟩]⟩
    | PostOutcome.ok r =>
      if 400 ≤ r.status ∧ r.status < 600 then
        ⟨[payload], [⟨true, "Notification error: HTTPError"⟩]⟩
      else
        ⟨[payload], [⟨false, "Pushover notification sent"⟩]⟩

/-- One loop body of the scripted `main`: the `try` block runs
`fetch_after_click`, and on success runs the detector and, on a positive
outcome, invokes the notifier; the `except Exception` handler catches any
raised error and prints one error-stream line.  The record counts the events
of this iteration (its `sleeps` field is 0; `main` adds the sleep). -/
def Scripted.iteration (b : Scripted.BrowserOracle) : RunStats :=
  match Scripted.fetch_after_click b with
  | Except.error _ => mkStats 1 0 0 0 1
  | Except.ok html =>
    if Scripted.page_has_july_or_august html then mkStats 1 1 1 0 0
    else mkStats 1 1 0 0 0

/-! ### The shared loop shape of both `main` functions -/

/-- `for i in range(n): body(i); if i < n - 1: sleep(SLEEP_SECONDS)`, counting
events.  The first argument of the recursion is the number of iterations left,
the second the current index. -/
def loopFrom (body : Nat → RunStats) (n : Nat) : Nat → Nat → RunStats
  | 0, _ => zeroStats
  | Nat.succ k, i =>
    let st := body i
    RunStats.add
      (mkStats st.fetches st.detectorCalls st.sendCalls (if i < n - 1 then 1 else 0) st.errLogs)
      (loopFrom body n k (i + 1))

/-- Run the whole `for i in range(n)` loop from index 0. -/
def runLoop (body : Nat → RunStats) (n : Nat) : RunStats := loopFrom body n n 0

/-- `main` of the scripted variant: `for attempt in range(LOOP_COUNT)`, each
iteration fetching (through the per-attempt oracle), detecting, notifying on
a positive outcome, and sleeping between attempts.  The commented-out early
`return` after a found slot is absent from the executed code, so every
iteration runs. -/
def Scripted.main (oracle : Nat → Scripted.BrowserOracle) (n : Nat) : RunStats :=
  runLoop (fun i => Scripted.iteration (oracle i)) n

/-- Outcome of one static-variant iteration: the event counts, and whether
this iteration detected availability (`false` when the fetch produced the
absence marker, since the source returns before the detector runs). -/
structure Static.IterOutcome where
  stats : RunStats
  detected : Bool

/-- `check_once` of the static variant: fetch the page; on the absence marker
(`None`) return immediately (the error was already logged by `fetch_page`);
otherwise run the detector and, on a positive outcome, invoke the notifier. -/
def Static.check_once (net : Except String Response) (env_url : Option String)
    (creds : Creds) (post : Payload → PostOutcome) : Static.IterOutcome :=
  match Static.fetch_page net with
  | (none, logs) => ⟨mkStats 1 0 0 0 logs.length, false⟩
  | (some html, logs) =>
    if Static.page_has_july_or_august html then
      let s := Static.send_notification env_url creds post
        "Appointment may be available in July or August." "RMV Appointment Checker"
      ⟨mkStats 1 1 1 0 (logs.length + (s.logs.filter (fun l => l.isErr)).length), true⟩
    else ⟨mkStats 1 1 0 0 logs.length, false⟩

/-- `main` of the static variant: `for iteration in range(LOOP_COUNT)`,
running `check_once` each time and sleeping between iterations. -/
def Static.main (net : Nat → Except String Response) (env_url : Option String)
    (creds : Creds) (post : Payload → PostOutcome) (n : Nat) : RunStats :=
  runLoop (fun i => (Static.check_once (net i) env_url creds post).stats) n

/-! ### Loop counting lemmas -/

theorem RunStats.add_def (a b : RunStats) :
    RunStats.add a b =
      ⟨a.fetches + b.fetches, a.detectorCalls + b.detectorCalls,
       a.sendCalls + b.sendCalls, a.sleeps + b.sleeps, a.errLogs + b.errLogs⟩ := rfl

theorem loopFrom_fetches (body : Nat → RunStats) (n : Nat)
    (h : ∀ i, (body i).fetches = 1) :
    ∀ k i, (loopFrom body n k i).fetches = k := by
  intro k
  induction k with
  | zero => intro i; rfl
  | succ k ih =>
    intro i
    simp only [loopFrom, RunStats.add_def, mkStats]
    simp [h i, ih (i + 1)]
    omega

theorem loopFrom_sleeps (body : Nat → RunStats) (n : Nat) :
    ∀ k i, i + k = n → (loopFrom body n k i).sleeps = k - 1 := by
  intro k
  induction k with
  | zero => intro i _; rfl
  | succ k ih =>
    intro i hi
    simp only [loopFrom, RunStats.add_def, mkStats]
    have hrec := ih (i + 1) (by omega)
    simp only [hrec]
    split
    · omega
    · omega

theorem loopFrom_sendCalls (body : Nat → RunStats) (n : Nat)
    (h : ∀ i, (body i).sendCalls = 0) :
    ∀ k i, (loopFrom body n k i).sendCalls = 0 := by
  intro k
  induction k with
  | zero => intro i; rfl
  | succ k ih =>
    intro i
    simp only [loopFrom, RunStats.add_def, mkStats]
    simp [h i, ih (i + 1)]

theorem runLoop_fetches (body : Nat → RunStats) (n : Nat)
    (h : ∀ i, (body i).fetches = 1) : (runLoop body n).fetches = n :=
  loopFrom_fetches body n h n 0

theorem runLoop_sleeps (body : Nat → RunStats) (n : Nat) :
    (runLoop body n).sleeps = n - 1 :=
  loopFrom_sleeps body n n 0 (by omega)

theorem runLoop_sendCalls (body : Nat → RunStats) (n : Nat)
    (h : ∀ i, (body i).sendCalls = 0) : (runLoop body n).sendCalls = 0 :=
  loopFrom_sendCalls body n h n 0

/-! ### Per-iteration lemmas -/

theorem scripted_iteration_fetches (b : Scripted.BrowserOracle) :
    (Scripted.iteration b).fetches = 1 := by
  unfold Scripted.iteration
  cases Scripted.fetch_after_click b with
  | error e => rfl
  | ok html =>
    dsimp only
    split
    · rfl
    · rfl

theorem scripted_iteration_fail (b : Scripted.BrowserOracle) (e : String)
    (h : Scripted.fetch_after_click b = Except.error e) :
    Scripted.iteration b = mkStats 1 0 0 0 1 := by
  unfold Scripted.iteration
  rw [h]

theorem static_fetch_page_none (net : Except String Response)
    (h : (Static.fetch_page net).1 = none) :
    ∃ e, Except.bind net raise_for_status = Except.error e := by
  unfold Static.fetch_page at h
  cases hb : Except.bind net raise_for_status with
  | error e => exact ⟨e, rfl⟩
  | ok r => rw [hb] at h; simp at h

theorem static_check_once_none (net : Except String Response)
    (env_url : Option String) (creds : Creds) (post : Payload → PostOutcome)
    (h : (Static.fetch_page net).1 = none) :
    Static.check_once net env_url creds post = ⟨mkStats 1 0 0 0 1, false⟩ := by
  obtain ⟨e, hb⟩ := static_fetch_page_none net h
  unfold Static.check_once Static.fetch_page
  rw [hb]
  rfl

theorem static_check_once_fetches (net : Except String Response)
    (env_url : Option String) (creds : Creds) (post : Payload → PostOutcome) :
    (Static.check_once net env_url creds post).stats.fetches = 1 := by
  unfold Static.check_once
  cases hfp : Static.fetch_page net with
  | mk o logs =>
    cases o with
    | none => rfl
    | some html =>
      dsimp only
      split
      · rfl
      · rfl

/-! ### Claim theorems -/

/-- Claim C1: for every HTML input whose extracted visible text contains the
literal substring "July" in any letter case (so its lowered text contains
"july"), both variants of `page_has_july_or_august` return true; for every
input whose lowered extracted text contains none of the variant's configured
month markers ("jul"/"aug" for the scripted variant, "jul"/"aug"/"sep" for
the static one), the detector returns false. -/
theorem claim_C1_detector_months (html : List Char) :
    (String.toList "july" <:+: lowerStr (getText html) →
      Scripted.page_has_july_or_august html = true ∧
      Static.page_has_july_or_august html = true) ∧
    (¬ String.toList "jul" <:+: lowerStr (getText html) →
     ¬ String.toList "aug" <:+: lowerStr (getText html) →
      Scripted.page_has_july_or_august html = false) ∧
    (¬ String.toList "jul" <:+: lowerStr (getText html) →
     ¬ String.toList "aug" <:+: lowerStr (getText html) →
     ¬ String.toList "sep" <:+: lowerStr (getText html) →
      Static.page_has_july_or_august html = false) := by
  refine ⟨?_, ?_, ?_⟩
  · intro h
    have hjul : String.toList "jul" <:+: lowerStr (getText html) :=
      ((by decide : String.toList "jul" <+: String.toList "july").isInfix).trans h
    exact ⟨(scripted_detector_iff html).mpr (Or.inl hjul),
           (static_detector_iff html).mpr (Or.inl hjul)⟩
  · intro h1 h2
    rw [Bool.eq_false_iff]
    intro htrue
    rcases (scripted_detector_iff html).mp htrue with h | h
    · exact h1 h
    · exact h2 h
  · intro h1 h2 h3
    rw [Bool.eq_false_iff]
    intro htrue
    rcases (static_detector_iff html).mp htrue with h | h | h
    · exact h1 h
    · exact h2 h
    · exact h3 h

/-- Witness for C1 on concrete pages: a page saying "JULY 1" is detected by
both variants, and a page with no month markers is rejected by both. -/
theorem claim_C1_detector_months_witness :
    (Scripted.page_has_july_or_august (String.toList "<p>JULY 1</p>") = true ∧
     Static.page_has_july_or_august (String.toList "<p>JULY 1</p>") = true) ∧
    Scripted.page_has_july_or_august (String.toList "<p>no dates</p>") = false ∧
    Static.page_has_july_or_august (String.toList "<p>no dates</p>") = false :=
  ⟨(claim_C1_detector_months (String.toList "<p>JULY 1</p>")).1 (by decide),
   (claim_C1_detector_months (String.toList "<p>no dates</p>")).2.1 (by decide) (by decide),
   (claim_C1_detector_months (String.toList "<p>no dates</p>")).2.2 (by decide) (by decide)
     (by decide)⟩

/-- Claim C7 evaluation: on a page whose extracted text contains "sep" (here
"September openings"), the static variant returns true, but the scripted
variant (`src/check_appointment.py`) returns false, because its matcher tuple
is only `("jul", "aug")` even though its own docstring says 'Sep' counts.
This refutes the claim that both source variants return true. -/
theorem claim_C7_sep_divergence :
    String.toList "sep" <:+:
      lowerStr (getText (String.toList "<html><body>September openings</body></html>")) ∧
    Scripted.page_has_july_or_august
      (String.toList "<html><body>September openings</body></html>") = false ∧
    Static.page_has_july_or_august
      (String.toList "<html><body>September openings</body></html>") = true :=
  ⟨by decide, by decide, by decide⟩

/-- Claim C9: both detector variants are total Lean functions (so they return
a boolean on every string input, malformed HTML included, without raising),
and any input from which no target-marker text is extracted yields false in
both variants. -/
theorem claim_C9_detector_safe (html : List Char)
    (h : ∀ m ∈ [String.toList "jul", String.toList "aug", String.toList "sep"],
        ¬ m <:+: lowerStr (getText html)) :
    Scripted.page_has_july_or_august html = false ∧
    Static.page_has_july_or_august html = false := by
  have hj := h (String.toList "jul") (by simp)
  have ha := h (String.toList "aug") (by simp)
  have hs := h (String.toList "sep") (by simp)
  constructor
  · rw [Bool.eq_false_iff]
    intro htrue
    rcases (scripted_detector_iff html).mp htrue with hx | hx
    · exact hj hx
    · exact ha hx
  · rw [Bool.eq_false_iff]
    intro htrue
    rcases (static_detector_iff html).mp htrue with hx | hx | hx
    · exact hj hx
    · exact ha hx
    · exact hs hx

/-- Witness for C9 on a malformed page (unclosed tags, stray bracket): both
detectors return false without any failure. -/
theorem claim_C9_detector_safe_witness :
    Scripted.page_has_july_or_august (String.toList "<html><p>no dates <b>visible") = false ∧
    Static.page_has_july_or_august (String.toList "<html><p>no dates <b>visible") = false :=
  claim_C9_detector_safe (String.toList "<html><p>no dates <b>visible") (by decide)

/-- Claim C2 counterexample: `fetch_after_click` does NOT catch failures
itself.  On an oracle whose navigation step raises, the function's result is
a propagating exception (`Except.error`), not a normal absence-of-result
value; the exception reaches the caller (`main`'s per-iteration handler). -/
theorem claim_C2_counterexample :
    Scripted.fetch_after_click
      ⟨Except.error "navigation failed", Except.ok (), Except.ok []⟩ =
      Except.error "navigation failed" := rfl

/-- Claim C2 as amended: a failure during navigation, element lookup, or
capture propagates out of `fetch_after_click` as an exception and is caught
one level up, by `main`'s per-iteration `except` handler, which logs one
error-stream line and continues: the iteration completes normally with no
detector call and no notifier call, so no exception escapes a loop
iteration. -/
theorem claim_C2_amended (b : Scripted.BrowserOracle) (e : String)
    (h : Scripted.fetch_after_click b = Except.error e) :
    Scripted.iteration b = mkStats 1 0 0 0 1 :=
  scripted_iteration_fail b e h

/-- Witness for the amended C2 at a concrete failing oracle. -/
theorem claim_C2_amended_witness :
    Scripted.iteration ⟨Except.error "x", Except.ok (), Except.ok []⟩ =
      mkStats 1 0 0 0 1 :=
  claim_C2_amended ⟨Except.error "x", Except.ok (), Except.ok []⟩ "x" rfl

/-- Claim C4: `fetch_page` returns the full response body on a success
status (below 400), and the absence marker `none` together with one logged
error-stream line on a non-success status (400..599, where
`raise_for_status` raises) or on a transport failure.  Its return type is
`Option` and the Lean function is total: nothing raises past this
boundary. -/
theorem claim_C4_fetch_page (r : Response) (e : String) :
    (r.status < 400 → Static.fetch_page (Except.ok r) = (some r.text, [])) ∧
    (400 ≤ r.status → r.status < 600 →
      Static.fetch_page (Except.ok r) =
        (none, [⟨true, "Error fetching: " ++ "HTTPError"⟩])) ∧
    Static.fetch_page (Except.error e) = (none, [⟨true, "Error fetching: " ++ e⟩]) := by
  refine ⟨?_, ?_, rfl⟩
  · intro hs
    unfold Static.fetch_page
    have hb : Except.bind (Except.ok r) raise_for_status = Except.ok r := by
      show raise_for_status r = Except.ok r
      unfold raise_for_status
      rw [if_neg (by omega)]
    rw [hb]
  · intro h1 h2
    unfold Static.fetch_page
    have hb : Except.bind (Except.ok r) raise_for_status = Except.error "HTTPError" := by
      show raise_for_status r = Except.error "HTTPError"
      unfold raise_for_status
      rw [if_pos ⟨h1, h2⟩]
    rw [hb]

/-- Witness for C4 at a 200 response, a 503 response, and a transport
error. -/
theorem claim_C4_fetch_page_witness :
    Static.fetch_page (Except.ok ⟨200, String.toList "<p>ok</p>"⟩) =
      (some (String.toList "<p>ok</p>"), []) ∧
    Static.fetch_page (Except.ok ⟨503, []⟩) =
      (none, [⟨true, "Error fetching: " ++ "HTTPError"⟩]) ∧
    Static.fetch_page (Except.error "timeout") =
      (none, [⟨true, "Error fetching: " ++ "timeout"⟩]) :=
  ⟨(claim_C4_fetch_page ⟨200, String.toList "<p>ok</p>"⟩ "timeout").1 (by decide),
   (claim_C4_fetch_page ⟨503, []⟩ "timeout").2.1 (by decide) (by decide),
   (claim_C4_fetch_page ⟨200, []⟩ "timeout").2.2⟩

/-- Claim C8: when the fetch produced the absence marker, `check_once`
returns before running the detector: the iteration's detection outcome is
false, the detector is never invoked on the marker, and the notifier is not
invoked in that iteration. -/
theorem claim_C8_absence_short_circuit (net : Except String Response)
    (env_url : Option String) (creds : Creds) (post : Payload → PostOutcome)
    (h : (Static.fetch_page net).1 = none) :
    (Static.check_once net env_url creds post).detected = false ∧
    (Static.check_once net env_url creds post).stats.detectorCalls = 0 ∧
    (Static.check_once net env_url creds post).stats.sendCalls = 0 := by
  rw [static_check_once_none net env_url creds post h]
  exact ⟨rfl, rfl, rfl⟩

/-- Witness for C8 at a concrete transport failure. -/
theorem claim_C8_absence_short_circuit_witness :
    (Static.check_once (Except.error "connection reset") none ⟨none, none⟩
        (fun _ => PostOutcome.ok ⟨200, []⟩)).detected = false ∧
    (Static.check_once (Except.error "connection reset") none ⟨none, none⟩
        (fun _ => PostOutcome.ok ⟨200, []⟩)).stats.detectorCalls = 0 ∧
    (Static.check_once (Except.error "connection reset") none ⟨none, none⟩
        (fun _ => PostOutcome.ok ⟨200, []⟩)).stats.sendCalls = 0 :=
  claim_C8_absence_short_circuit (Except.error "connection reset") none ⟨none, none⟩
    (fun _ => PostOutcome.ok ⟨200, []⟩) rfl

/-- Claim C5 counterexample: the static variant's `send_notification`, with
the user key absent, performs zero network calls but emits NO diagnostic (it
returns silently, as its own docstring says), refuting "every invocation ...
emits a diagnostic". -/
theorem claim_C5_counterexample :
    (Static.send_notification none ⟨none, some "tok"⟩
        (fun _ => PostOutcome.ok ⟨200, []⟩) "m" "t").logs = [] ∧
    (Static.send_notification none ⟨none, some "tok"⟩
        (fun _ => PostOutcome.ok ⟨200, []⟩) "m" "t").posts = [] :=
  ⟨rfl, rfl⟩

/-- Claim C5 as amended: with either credential absent, both notifier
variants perform zero network calls and return normally; the scripted
variant emits one "keys missing" diagnostic on the error stream, while the
static variant returns silently with no output. -/
theorem claim_C5_amended (creds : Creds) (post : Payload → PostOutcome)
    (env_url : Option String) (message title : String)
    (h : creds.user_key = none ∨ creds.api_token = none) :
    (Scripted.send_notification creds post message title).posts = [] ∧
    (Scripted.send_notification creds post message title).logs =
      [⟨true, "Pushover keys missing; skipping notification"⟩] ∧
    (Static.send_notification env_url creds post message title).posts = [] ∧
    (Static.send_notification env_url creds post message title).logs = [] := by
  have hg : truthy creds.user_key = false ∨ truthy creds.api_token = false := by
    rcases h with h | h
    · left; rw [h]; rfl
    · right; rw [h]; rfl
  unfold Scripted.send_notification Static.send_notification
  rcases hg with hg | hg <;> simp [hg]

/-- Witness for the amended C5 with the user key unset. -/
theorem claim_C5_amended_witness :
    (Scripted.send_notification ⟨none, some "tok"⟩
        (fun _ => PostOutcome.ok ⟨200, []⟩) "m" "t").posts = [] ∧
    (Scripted.send_notification ⟨none, some "tok"⟩
        (fun _ => PostOutcome.ok ⟨200, []⟩) "m" "t").logs =
      [⟨true, "Pushover keys missing; skipping notification"⟩] ∧
    (Static.send_notification (some Static.DEFAULT_URL) ⟨none, some "tok"⟩
        (fun _ => PostOutcome.ok ⟨200, []⟩) "m" "t").posts = [] ∧
    (Static.send_notification (some Static.DEFAULT_URL) ⟨none, some "tok"⟩
        (fun _ => PostOutcome.ok ⟨200, []⟩) "m" "t").logs = [] :=
  claim_C5_amended ⟨none, some "tok"⟩ (fun _ => PostOutcome.ok ⟨200, []⟩)
    (some Static.DEFAULT_URL) "m" "t" (Or.inl rfl)

/-- Claim C6: with both credentials present and a failing POST (transport
error or a 400..599 status), both notifier variants catch the failure, emit
exactly one diagnostic line on the error stream, perform exactly the one
attempted POST, and return normally (the Lean functions are total, so the
failure cannot abort the calling loop). -/
theorem claim_C6_notifier_failure (creds : Creds) (post : Payload → PostOutcome)
    (env_url : Option String) (message title : String)
    (hu : truthy creds.user_key = true) (ht : truthy creds.api_token = true)
    (hfail : ∀ p, isFail (post p) = true) :
    ((Scripted.send_notification creds post message title).posts.length = 1 ∧
     (Scripted.send_notification creds post message title).logs.length = 1 ∧
     ∀ l ∈ (Scripted.send_notification creds post message title).logs, l.isErr = true) ∧
    ((Static.send_notification env_url creds post message title).posts.length = 1 ∧
     (Static.send_notification env_url creds post message title).logs.length = 1 ∧
     ∀ l ∈ (Static.send_notification env_url creds post message title).logs,
        l.isErr = true) := by
  constructor
  · unfold Scripted.send_notification
    rw [hu, ht]
    simp only [Bool.and_self, Bool.not_true, Bool.false_eq_true, if_false]
    cases hp : post ⟨creds.api_token.getD "", creds.user_key.getD "", title, message,
        Scripted.DEFAULT_URL⟩ with
    | err e => simp
    | ok r =>
      have h2 := hfail ⟨creds.api_token.getD "", creds.user_key.getD "", title, message,
        Scripted.DEFAULT_URL⟩
      rw [hp] at h2
      simp only [isFail, decide_eq_true_eq] at h2
      simp [h2]
  · unfold Static.send_notification
    rw [hu, ht]
    simp only [Bool.not_true, Bool.false_or, Bool.or_self, Bool.false_eq_true, if_false]
    cases hp : post ⟨creds.api_token.getD "", creds.user_key.getD "", title, message,
        env_url.getD Static.DEFAULT_URL⟩ with
    | err e => simp
    | ok r =>
      have h2 := hfail ⟨creds.api_token.getD "", creds.user_key.getD "", title, message,
        env_url.getD Static.DEFAULT_URL⟩
      rw [hp] at h2
      simp only [isFail, decide_eq_true_eq] at h2
      simp [h2]

/-- Witness for C6 with concrete credentials and an endpoint that always
fails with a transport error. -/
theorem claim_C6_notifier_failure_witness :
    ((Scripted.send_notification ⟨some "u", some "t"⟩
        (fun _ => PostOutcome.err "boom") "m" "ti").posts.length = 1 ∧
     (Scripted.send_notification ⟨some "u", some "t"⟩
        (fun _ => PostOutcome.err "boom") "m" "ti").logs.length = 1 ∧
     ∀ l ∈ (Scripted.send_notification ⟨some "u", some "t"⟩
        (fun _ => PostOutcome.err "boom") "m" "ti").logs, l.isErr = true) ∧
    ((Static.send_notification none ⟨some "u", some "t"⟩
        (fun _ => PostOutcome.err "boom") "m" "ti").posts.length = 1 ∧
     (Static.send_notification none ⟨some "u", some "t"⟩
        (fun _ => PostOutcome.err "boom") "m" "ti").logs.length = 1 ∧
     ∀ l ∈ (Static.send_notification none ⟨some "u", some "t"⟩
        (fun _ => PostOutcome.err "boom") "m" "ti").logs, l.isErr = true) :=
  claim_C6_notifier_failure ⟨some "u", some "t"⟩ (fun _ => PostOutcome.err "boom")
    none "m" "ti" rfl rfl (fun _ => rfl)

/-- Claim C3: for every iteration count N with N at least 1, both `main`
variants perform exactly N fetch attempts and exactly N-1 inter-attempt
sleeps and return normally (the Lean functions are total); when every fetch
attempt fails, the notifier is never invoked; and N = 1 performs zero sleeps
regardless of outcome. -/
theorem claim_C3_loop_counts (n : Nat) (hn : 1 ≤ n)
    (oracle : Nat → Scripted.BrowserOracle) (net : Nat → Except String Response)
    (env_url : Option String) (creds : Creds) (post : Payload → PostOutcome) :
    (Scripted.main oracle n).fetches = n ∧
    (Scripted.main oracle n).sleeps = n - 1 ∧
    (Static.main net env_url creds post n).fetches = n ∧
    (Static.main net env_url creds post n).sleeps = n - 1 ∧
    ((∀ i, ∃ e, Scripted.fetch_after_click (oracle i) = Except.error e) →
      (Scripted.main oracle n).sendCalls = 0) ∧
    ((∀ i, (Static.fetch_page (net i)).1 = none) →
      (Static.main net env_url creds post n).sendCalls = 0) ∧
    (n = 1 → (Scripted.main oracle n).sleeps = 0 ∧
      (Static.main net env_url creds post n).sleeps = 0) := by
  refine ⟨?_, ?_, ?_, ?_, ?_, ?_, ?_⟩
  · exact runLoop_fetches _ n (fun i => scripted_iteration_fetches (oracle i))
  · exact runLoop_sleeps _ n
  · exact runLoop_fetches _ n
      (fun i => static_check_once_fetches (net i) env_url creds post)
  · exact runLoop_sleeps _ n
  · intro h
    refine runLoop_sendCalls _ n (fun i => ?_)
    obtain ⟨e, he⟩ := h i
    rw [scripted_iteration_fail (oracle i) e he]
    rfl
  · intro h
    refine runLoop_sendCalls _ n (fun i => ?_)
    rw [static_check_once_none (net i) env_url creds post (h i)]
    rfl
  · intro h
    subst h
    exact ⟨runLoop_sleeps _ 1, runLoop_sleeps _ 1⟩

/-- Witness for C3 at N = 3 with an always-failing scripted fetch and an
always-failing static fetch: 3 fetch attempts, 2 sleeps, 0 notifier
invocations in both variants. -/
theorem claim_C3_loop_counts_witness :
    (Scripted.main (fun _ => ⟨Except.error "x", Except.ok (), Except.ok []⟩) 3).fetches = 3 ∧
    (Scripted.main (fun _ => ⟨Except.error "x", Except.ok (), Except.ok []⟩) 3).sleeps = 2 ∧
    (Scripted.main (fun _ => ⟨Except.error "x", Except.ok (), Except.ok []⟩) 3).sendCalls = 0 ∧
    (Static.main (fun _ => Except.error "down") none ⟨none, none⟩
      (fun _ => PostOutcome.ok ⟨200, []⟩) 3).fetches = 3 ∧
    (Static.main (fun _ => Except.error "down") none ⟨none, none⟩
      (fun _ => PostOutcome.ok ⟨200, []⟩) 3).sleeps = 2 ∧
    (Static.main (fun _ => Except.error "down") none ⟨none, none⟩
      (fun _ => PostOutcome.ok ⟨200, []⟩) 3).sendCalls = 0 := by
  have h := claim_C3_loop_counts 3 (by decide)
    (fun _ => ⟨Except.error "x", Except.ok (), Except.ok []⟩)
    (fun _ => Except.error "down") none ⟨none, none⟩
    (fun _ => PostOutcome.ok ⟨200, []⟩)
  exact ⟨h.1, h.2.1, h.2.2.2.2.1 (fun i => ⟨"x", rfl⟩), h.2.2.1, h.2.2.2.1,
    h.2.2.2.2.2.1 (fun i => rfl)⟩

/-- Claim C10: a positive detection outcome never terminates either loop
early: for every sequence of per-iteration fetch outcomes (hence every
sequence of detection outcomes, notifications included), both `main`
variants execute exactly the configured number of iterations. -/
theorem claim_C10_no_early_exit (n : Nat) (oracle : Nat → Scripted.BrowserOracle)
    (net : Nat → Except String Response) (env_url : Option String) (creds : Creds)
    (post : Payload → PostOutcome) :
    (Scripted.main oracle n).fetches = n ∧
    (Static.main net env_url creds post n).fetches = n :=
  ⟨runLoop_fetches _ n (fun i => scripted_iteration_fetches (oracle i)),
   runLoop_fetches _ n (fun i => static_check_once_fetches (net i) env_url creds post)⟩
